import Mathlib

/-!
Shallow embedding of `argononed.py` (Argon ONE fan-control daemon) and
verification of its specification claims.

Temperatures are modelled as rationals (the Python code only compares them
and adds or subtracts the constant margin 4.0, so all arithmetic is exact);
fan speeds are integers (Python `int`).  Python strings are modelled as
`List Char`, with the string operations the program uses (`strip`,
`startswith`, `split`, `upper`) given as structural recursions so that every
definition evaluates inside the kernel.  The Python builtins `int()` and
`float()` are external collaborators and are taken as parameters
(`List Char → Option Int` / `List Char → Option ℚ`, `none` meaning the
builtin raises).  File, bus and logging effects are explicit: the system
state carries the controller's in-memory last speed, the durable state-file
content, and a trace of externally visible events.  Python exceptions are
modelled with `Except`, the error value carrying the state at the moment the
exception escapes.
-/

namespace Argononed

/-! ### Python string primitives -/

/-- One character of Python's `str.upper()` restricted to ASCII, which is all
the program ever compares against. -/
def upperChar (c : Char) : Char :=
  if c.isLower then Char.ofNat (c.toNat - 32) else c

/-- `str.upper()`. -/
def pyUpper (s : List Char) : List Char := s.map upperChar

/-- `str.strip()`: drop leading and trailing whitespace. -/
def pyStrip (s : List Char) : List Char :=
  ((s.dropWhile Char.isWhitespace).reverse.dropWhile Char.isWhitespace).reverse

/-- `str.startswith("#")`. -/
def pyStartsWithHash (s : List Char) : Bool :=
  match s with
  | [] => false
  | c :: _ => c = '#'

/-- `str.split("=")`: split on every `'='`, keeping empty pieces, so that
`"a=b"` gives `["a", "b"]` and a string without `'='` gives a singleton. -/
def pySplitEq : List Char → List (List Char)
  | [] => [[]]
  | c :: rest =>
    if c = '=' then [] :: pySplitEq rest
    else
      match pySplitEq rest with
      | [] => [[c]]
      | h :: t => (c :: h) :: t

/-- Decimal digits of a natural number, most significant first; the first
argument is recursion fuel (`n` itself always suffices). -/
def natDigitsAux : Nat → Nat → List Char
  | 0, _ => []
  | fuel + 1, n =>
    if n = 0 then []
    else natDigitsAux fuel (n / 10) ++ [Char.ofNat (48 + n % 10)]

/-- Python `str(i)` for an integer, as written by `write_state`. -/
def intRepr (i : Int) : List Char :=
  match i with
  | .ofNat 0 => ['0']
  | .ofNat n => natDigitsAux n n
  | .negSucc m => '-' :: natDigitsAux (m + 1) (m + 1)

/-! ### Data model and constants (`argononed.py` header) -/

/-- A step of the fan curve: `Step.temp_c` is the temperature threshold,
`Step.speed` the duty cycle commanded at or above it
(`@dataclass(frozen=True) class Step`). -/
structure Step where
  temp_c : ℚ
  speed : Int
deriving DecidableEq, Repr

/-- `I2C_BUS = 1` -/
def I2C_BUS : Nat := 1

/-- `I2C_ADDR = 0x1A` -/
def I2C_ADDR : Nat := 0x1A

/-- `FAN_REG = 0x80` -/
def FAN_REG : Nat := 0x80

/-- `POLL_SECONDS = 4.0` (sleep length between ticks; timing itself is not
modelled, only the per-tick iteration order). -/
def POLL_SECONDS : ℚ := 4

/-- `HYSTERESIS = 4.0` (degrees Celsius). -/
def HYSTERESIS : ℚ := 4

/-- The hardcoded fallback table from `parse_conf`:
`[Step(45,20), Step(50,35), Step(55,55), Step(60,75), Step(65,100)]`. -/
def defaultSteps : List Step :=
  [⟨45, 20⟩, ⟨50, 35⟩, ⟨55, 55⟩, ⟨60, 75⟩, ⟨65, 100⟩]

/-! ### Decision engine (`calc_target`) -/

/-- The base-target scan in `calc_target`:
`target = 0; for st in steps: if temp >= st.temp_c: target = st.speed`. -/
def lookupBaseTarget (temp : ℚ) (steps : List Step) : Int :=
  steps.foldl (fun target st => if temp ≥ st.temp_c then st.speed else target) 0

/-- `next((s.temp_c for s in steps if s.speed == v), d)`: threshold of the
first step whose duty cycle equals `v`, defaulting to `d`. -/
def find_threshold (steps : List Step) (v : Int) (d : ℚ) : ℚ :=
  match steps.find? (fun s => s.speed == v) with
  | some s => s.temp_c
  | none => d

/-- `calc_target(temp, steps, last)`: base-target lookup followed by the two
hysteresis guards.  The Python `if/if` pair behaves as `if/elif` because the
two conditions `target > last` and `target < last` are mutually exclusive. -/
def calc_target (temp : ℚ) (steps : List Step) (last : Option Int) : Int :=
  let target := lookupBaseTarget temp steps
  match last with
  | none => target
  | some l =>
    if target > l ∧ temp < find_threshold steps target temp - HYSTERESIS then l
    else if target < l ∧ temp > find_threshold steps l temp + HYSTERESIS then l
    else target

/-! ### Configuration loading (`parse_conf`) -/

/-- The body of `parse_conf`'s `try:` block for one already-stripped line:
`t, s = line.split("=")` (exactly two pieces or `ValueError`), then
`Step(float(t), int(s))`; any failure is caught by the bare `except`. -/
def parse_line (pf : List Char → Option ℚ) (pi : List Char → Option Int)
    (line : List Char) : Option Step :=
  match pySplitEq line with
  | [t, s] =>
    match pf t, pi s with
    | some tv, some sv => some ⟨tv, sv⟩
    | _, _ => none
  | _ => none

/-- `parse_conf()`.  `conf = none` models an absent `CONF_PATH`
(`os.path.exists` false): the hardcoded default table is returned.  With the
file present, each line is stripped; blank lines and `#` comments are
skipped; lines that fail to parse are silently dropped; the surviving steps
are sorted (stably, like Python's `list.sort`) by `temp_c`. -/
def parse_conf (pf : List Char → Option ℚ) (pi : List Char → Option Int)
    (conf : Option (List (List Char))) : List Step :=
  match conf with
  | none => defaultSteps
  | some lines =>
    List.insertionSort (fun a b => a.temp_c ≤ b.temp_c)
      (lines.filterMap fun line =>
        let l := pyStrip line
        if l.isEmpty || pyStartsWithHash l then none
        else parse_line pf pi l)

/-! ### Controller state and effects -/

/-- Externally visible effects, in program order. -/
inductive Event where
  | busOpen : Event
  | busWrite : Nat → Nat → Int → Event
  | stateWrite : Int → Event
  | logSpeed : Int → Event
  | busClose : Event
deriving DecidableEq, Repr

/-- Whole-system state: the controller's in-memory `last_speed`, the content
of the `STATE_PATH` file (`none` = absent or unreadable), and the trace of
events so far. -/
structure Sys where
  fc_last : Option Int
  store : Option (List Char)
  events : List Event
deriving DecidableEq, Repr

/-- `write_state(speed)`: best-effort write of `str(speed)` to `STATE_PATH`;
the bare `except: pass` means a failure (`persistOk = false`) changes
nothing. -/
def write_state (persistOk : Bool) (speed : Int) (s : Sys) : Sys :=
  if persistOk then
    { s with store := some (intRepr speed),
             events := s.events ++ [Event.stateWrite speed] }
  else s

/-- `read_state()`: `int(f.read().strip())` with every exception mapped to
`None`; `pi` models the Python `int()` builtin. -/
def read_state (pi : List Char → Option Int) (store : Option (List Char)) :
    Option Int :=
  match store with
  | none => none
  | some content => pi (pyStrip content)

/-- `FanController.__init__`: raises `RuntimeError` when `smbus` is missing
(or the bus cannot be opened), otherwise opens the bus and initializes
`last_speed` from the state file. -/
def fc_init (smbusOk : Bool) (pi : List Char → Option Int) (s : Sys) :
    Except Sys Sys :=
  if smbusOk then
    .ok { s with fc_last := read_state pi s.store,
                 events := s.events ++ [Event.busOpen] }
  else .error s

/-- `FanController.close()`: `self.bus.close()` with exceptions swallowed. -/
def fc_close (s : Sys) : Sys :=
  { s with events := s.events ++ [Event.busClose] }

/-- The successful tail of `FanController.set_speed` once the duplicate check
has passed: `self.bus.write_byte_data(I2C_ADDR, FAN_REG, speed)`, then
`self.last_speed = speed`, then `write_state(speed)`, then the log line. -/
def commitSpeed (persistOk : Bool) (sp : Int) (s : Sys) : Sys :=
  let s1 := { s with fc_last := some sp,
                     events := s.events ++ [Event.busWrite I2C_ADDR FAN_REG sp] }
  let s2 := write_state persistOk sp s1
  { s2 with events := s2.events ++ [Event.logSpeed sp] }

/-- `FanController.set_speed(speed)`: clamp with `max(0, min(100, speed))`;
return unchanged when the clamped value equals `last_speed` (note Python's
`None == speed` is `False`); otherwise the hardware write happens first, so
when it raises (`hwOk = false`) the exception escapes with the state exactly
as it was. -/
def set_speed (hwOk persistOk : Bool) (speed : Int) (s : Sys) :
    Except Sys Sys :=
  let sp := max 0 (min 100 speed)
  if s.fc_last = some sp then .ok s
  else if hwOk then .ok (commitSpeed persistOk sp s)
  else .error s

/-! ### Service loop and command dispatch -/

/-- Per-run environment: availability of `smbus`/the bus, the config file
content (`none` = absent), the sequence of service-loop iterations actually
executed before the stop flag is observed (each with the temperature
`read_cpu_temp` returned and whether the bus write would succeed), the bus
and state-file behavior for one-shot commands, and the two Python numeric
builtins. -/
structure Env where
  smbusOk : Bool
  conf : Option (List (List Char))
  ticks : List (ℚ × Bool)
  hwOk : Bool
  persistOk : Bool
  pf : List Char → Option ℚ
  pi : List Char → Option Int
  cpu_temp : ℚ

/-- The `while not stop:` body of `run_service`, one entry of `ticks` per
iteration: read the temperature, `calc_target`, `set_speed`, sleep.  An
exception from `set_speed` is not caught anywhere in the loop, so it ends
the recursion immediately. -/
def service_loop (steps : List Step) (persistOk : Bool)
    (ticks : List (ℚ × Bool)) (s : Sys) : Except Sys Sys :=
  match ticks with
  | [] => .ok s
  | (temp, hwOk) :: rest =>
    let target := calc_target temp steps s.fc_last
    match set_speed hwOk persistOk target s with
    | .ok s1 => service_loop steps persistOk rest s1
    | .error s1 => .error s1

/-- `run_service()`: parse the config, build its own `FanController`, run the
loop, and close the bus in the `finally:` block whether or not the loop
raised; a raise is re-thrown after the close. -/
def run_service (env : Env) (s : Sys) : Except Sys Sys :=
  let steps := parse_conf env.pf env.pi env.conf
  match fc_init env.smbusOk env.pi s with
  | .error s1 => .error s1
  | .ok s1 =>
    match service_loop steps env.persistOk env.ticks s1 with
    | .ok s2 => .ok (fc_close s2)
    | .error s2 => .error (fc_close s2)

/-- `main()`: with fewer than two `argv` entries, return 2 before touching
any hardware.  Otherwise upper-case `argv[1]`, construct a `FanController`
(which opens the bus), dispatch, and close the bus in `finally:`.  `.ok`
carries the process exit code (`sys.exit(main())`); `.error` is an uncaught
exception (Python then exits with a traceback, code 1). -/
def main (env : Env) (argv : List (List Char)) (s : Sys) :
    Except Sys (Nat × Sys) :=
  if argv.length < 2 then .ok (2, s)
  else
    let cmd := pyUpper (argv.getD 1 [])
    match fc_init env.smbusOk env.pi s with
    | .error s1 => .error s1
    | .ok s1 =>
      let branch : Except Sys (Nat × Sys) :=
        if cmd = "SERVICE".data then
          match run_service env s1 with
          | .ok s2 => .ok (0, s2)
          | .error s2 => .error s2
        else if cmd = "FANON".data then
          match set_speed env.hwOk env.persistOk 100 s1 with
          | .ok s2 => .ok (0, s2)
          | .error s2 => .error s2
        else if cmd = "FANOFF".data then
          match set_speed env.hwOk env.persistOk 0 s1 with
          | .ok s2 => .ok (0, s2)
          | .error s2 => .error s2
        else if cmd = "FANSPEED".data then
          if 2 < argv.length then
            match env.pi (argv.getD 2 []) with
            | none => .error s1
            | some v =>
              match set_speed env.hwOk env.persistOk v s1 with
              | .ok s2 => .ok (0, s2)
              | .error s2 => .error s2
          else .error s1
        else if cmd = "STATUS".data then
          let _ := calc_target env.cpu_temp (parse_conf env.pf env.pi env.conf)
            s1.fc_last
          .ok (0, s1)
        else .ok (2, s1)
      match branch with
      | .ok (n, s2) => .ok (n, fc_close s2)
      | .error s2 => .error (fc_close s2)

/-- Recognizer for hardware-write events, used to count bus writes. -/
def isBusWrite : Event → Bool
  | .busWrite _ _ _ => true
  | _ => false

/-- Recognizer for durable-state writes. -/
def isStateWrite : Event → Bool
  | .stateWrite _ => true
  | _ => false


/-! ### Concrete states and environments used by witnesses and counterexamples -/

/-- A `float()` model that always raises (never consulted by these runs). -/
def pfNone : List Char → Option ℚ := fun _ => none

/-- An `int()` model that always raises. -/
def piNone : List Char → Option Int := fun _ => none

/-- A simple faithful `int()` model for the inputs that appear below:
strip, optional minus sign, then decimal digits. -/
def piDec (s : List Char) : Option Int :=
  let t := pyStrip s
  let digits : List Char → Option Nat := fun ds =>
    if ds.isEmpty then none
    else ds.foldl (fun acc c =>
      match acc with
      | none => none
      | some n => if c.isDigit then some (n * 10 + (c.toNat - 48)) else none)
      (some 0)
  match t with
  | '-' :: rest => (digits rest).map fun n => -(n : Int)
  | _ => (digits t).map fun n => (n : Int)

/-- Fresh state: no controller knowledge, no state file, no events. -/
def sys0 : Sys := ⟨none, none, []⟩

/-- Environment for the service-loop counterexample: first tick at 70 °C with
a failing bus write, a second tick at 70 °C that would succeed. -/
def envLoopFail : Env := ⟨true, none, [(70, false), (70, true)], true, true, pfNone, piNone, 0⟩

/-- Environment for the command-dispatch runs: bus available, no config, no
service ticks. -/
def envCli : Env := ⟨true, none, [], true, true, pfNone, piNone, 0⟩

/-! ### Helper lemmas on the decision engine -/

/-- Closed form of the base-target scan over the default table. -/
lemma lookup_default_eq (T : ℚ) :
    lookupBaseTarget T defaultSteps =
      if 65 ≤ T then 100 else if 60 ≤ T then 75 else if 55 ≤ T then 55
      else if 50 ≤ T then 35 else if 45 ≤ T then 20 else 0 := rfl

/-- Closed form of the threshold lookup over the default table. -/
lemma find_threshold_default (v : Int) (d : ℚ) :
    find_threshold defaultSteps v d =
      if (20 : Int) = v then 45 else if (35 : Int) = v then 50
      else if (55 : Int) = v then 55 else if (75 : Int) = v then 60
      else if (100 : Int) = v then 65 else d := by
  by_cases h1 : (20 : Int) = v
  · subst h1; rfl
  by_cases h2 : (35 : Int) = v
  · subst h2; rfl
  by_cases h3 : (55 : Int) = v
  · subst h3; rfl
  by_cases h4 : (75 : Int) = v
  · subst h4; rfl
  by_cases h5 : (100 : Int) = v
  · subst h5; rfl
  have e1 : ((20 : Int) == v) = false := beq_eq_false_iff_ne.mpr h1
  have e2 : ((35 : Int) == v) = false := beq_eq_false_iff_ne.mpr h2
  have e3 : ((55 : Int) == v) = false := beq_eq_false_iff_ne.mpr h3
  have e4 : ((75 : Int) == v) = false := beq_eq_false_iff_ne.mpr h4
  have e5 : ((100 : Int) == v) = false := beq_eq_false_iff_ne.mpr h5
  simp [find_threshold, defaultSteps, List.find?, e1, e2, e3, e4, e5, h1, h2, h3, h4, h5]

/-- Over the default table the increase-suppression guard of `calc_target`
never fires: the matched step's own threshold is at most the temperature. -/
lemma default_no_increase (temp : ℚ) (l : Int) :
    ¬(lookupBaseTarget temp defaultSteps > l ∧
      temp < find_threshold defaultSteps (lookupBaseTarget temp defaultSteps) temp
        - HYSTERESIS) := by
  rw [lookup_default_eq]
  split_ifs with h65 h60 h55 h50 h45 <;>
    · rw [find_threshold_default]
      rintro ⟨-, hlt⟩
      norm_num [HYSTERESIS] at hlt
      linarith

/-- Over the default table the decrease-suppression guard of `calc_target`
never fires: `temp > threshold(last) + 4` forces the base target back up to
at least `last`. -/
lemma default_no_decrease (temp : ℚ) (l : Int) :
    ¬(lookupBaseTarget temp defaultSteps < l ∧
      temp > find_threshold defaultSteps l temp + HYSTERESIS) := by
  rw [lookup_default_eq, find_threshold_default]
  rintro ⟨h1, h2⟩
  rw [HYSTERESIS] at h2
  split_ifs at h1 h2 <;> first | omega | linarith

/-- On the default table, `calc_target` with a previous command reduces to
the plain base-target lookup. -/
lemma calc_target_default_some (temp : ℚ) (l : Int) :
    calc_target temp defaultSteps (some l) = lookupBaseTarget temp defaultSteps := by
  simp only [calc_target]
  rw [if_neg (default_no_increase temp l), if_neg (default_no_decrease temp l)]

/-! ### Claims about the decision engine -/

/-- Claim C10 (confirmed): for the default step table,
`decide(temperature, table, lastCommanded)` equals
`lookupBaseTarget(temperature, table)` for every temperature and every
`lastCommanded` value, including none: neither hysteresis branch ever
changes the result. -/
theorem calc_target_eq_lookupBaseTarget_default (temp : ℚ) (last : Option Int) :
    calc_target temp defaultSteps last = lookupBaseTarget temp defaultSteps := by
  cases last with
  | none => rfl
  | some l => exact calc_target_default_some temp l

/-- Claim C3 (confirmed): over the default table `lookupBaseTarget` is the
expected step function of the temperature, and over an empty table it is
constantly 0. -/
theorem lookupBaseTarget_default_piecewise (T : ℚ) :
    (T < 45 → lookupBaseTarget T defaultSteps = 0) ∧
    (45 ≤ T → T < 50 → lookupBaseTarget T defaultSteps = 20) ∧
    (50 ≤ T → T < 55 → lookupBaseTarget T defaultSteps = 35) ∧
    (55 ≤ T → T < 60 → lookupBaseTarget T defaultSteps = 55) ∧
    (60 ≤ T → T < 65 → lookupBaseTarget T defaultSteps = 75) ∧
    (65 ≤ T → lookupBaseTarget T defaultSteps = 100) ∧
    lookupBaseTarget T [] = 0 := by
  refine ⟨?_, ?_, ?_, ?_, ?_, ?_, rfl⟩ <;>
    · intros
      rw [lookup_default_eq]
      split_ifs <;> first | rfl | linarith

/-- Witness for C3: each piece of `lookupBaseTarget_default_piecewise`
instantiated at a concrete temperature inside its interval. -/
theorem lookupBaseTarget_default_piecewise_witness :
    ((44 : ℚ) < 45 ∧ lookupBaseTarget 44 defaultSteps = 0) ∧
    ((45 : ℚ) ≤ 46 ∧ (46 : ℚ) < 50 ∧ lookupBaseTarget 46 defaultSteps = 20) ∧
    ((50 : ℚ) ≤ 51 ∧ (51 : ℚ) < 55 ∧ lookupBaseTarget 51 defaultSteps = 35) ∧
    ((55 : ℚ) ≤ 56 ∧ (56 : ℚ) < 60 ∧ lookupBaseTarget 56 defaultSteps = 55) ∧
    ((60 : ℚ) ≤ 61 ∧ (61 : ℚ) < 65 ∧ lookupBaseTarget 61 defaultSteps = 75) ∧
    ((65 : ℚ) ≤ 66 ∧ lookupBaseTarget 66 defaultSteps = 100) :=
  ⟨⟨by decide, (lookupBaseTarget_default_piecewise 44).1 (by decide)⟩,
   ⟨by decide, by decide,
    (lookupBaseTarget_default_piecewise 46).2.1 (by decide) (by decide)⟩,
   ⟨by decide, by decide,
    (lookupBaseTarget_default_piecewise 51).2.2.1 (by decide) (by decide)⟩,
   ⟨by decide, by decide,
    (lookupBaseTarget_default_piecewise 56).2.2.2.1 (by decide) (by decide)⟩,
   ⟨by decide, by decide,
    (lookupBaseTarget_default_piecewise 61).2.2.2.2.1 (by decide) (by decide)⟩,
   ⟨by decide, (lookupBaseTarget_default_piecewise 66).2.2.2.2.2.1 (by decide)⟩⟩

/-- Claim C1 (code bug): the spec expects `decide(63, table, 100) = 100`
(decrease suppressed while the temperature is above 65 − 4 = 61), but the
code compares against `threshold + HYSTERESIS`, a condition that can never
hold while the base target is below the last command, so it returns the base
target 75 immediately. -/
theorem calc_target_no_decrease_hysteresis_at_63 :
    calc_target 63 defaultSteps (some 100) = 75 ∧ (75 : Int) ≠ 100 := by
  constructor
  · rw [calc_target_default_some, lookup_default_eq]
    norm_num
  · decide

/-! ### Helper lemmas on the controller -/

/-- `set_speed` only ever looks at the clamped value. -/
lemma set_speed_congr (hwOk persistOk : Bool) (a b : Int) (s : Sys)
    (h : max 0 (min 100 a) = max 0 (min 100 b)) :
    set_speed hwOk persistOk a s = set_speed hwOk persistOk b s := by
  unfold set_speed
  rw [h]

/-- A failing bus write makes `set_speed` raise with the state untouched
(the write happens before any state update). -/
lemma set_speed_error_of_ne (persistOk : Bool) (req : Int) (s : Sys)
    (h : s.fc_last ≠ some (max 0 (min 100 req))) :
    set_speed false persistOk req s = .error s := by
  simp [set_speed, h]

/-- The duplicate check: a request whose clamp equals the current known
speed returns immediately with no effect. -/
lemma set_speed_noop (hwOk persistOk : Bool) (v : Int) (s : Sys)
    (h : s.fc_last = some (max 0 (min 100 v))) :
    set_speed hwOk persistOk v s = .ok s := by
  simp [set_speed, h]

/-- A successful non-duplicate call commits: bus write, memory update,
state-file write, log line. -/
lemma set_speed_commit (persistOk : Bool) (v : Int) (s : Sys)
    (h : s.fc_last ≠ some (max 0 (min 100 v))) :
    set_speed true persistOk v s =
      .ok (commitSpeed persistOk (max 0 (min 100 v)) s) := by
  simp [set_speed, h]

/-- After a commit the in-memory speed is the committed value. -/
lemma commitSpeed_fc_last (persistOk : Bool) (sp : Int) (s : Sys) :
    (commitSpeed persistOk sp s).fc_last = some sp := by
  cases persistOk <;> rfl

/-- Event trace of a commit with working persistence. -/
lemma commitSpeed_events (sp : Int) (s : Sys) :
    (commitSpeed true sp s).events =
      s.events ++ [Event.busWrite I2C_ADDR FAN_REG sp, Event.stateWrite sp,
        Event.logSpeed sp] := by
  simp [commitSpeed, write_state]

/-! ### Claims about the controller -/

/-- Claim C4 (confirmed): when the hardware write raises, `set_speed`
propagates the error and the state — in-memory speed, durable store, and
event trace — is exactly what it was before the call. -/
theorem set_speed_write_failure_leaves_state (persistOk : Bool) (req : Int)
    (s : Sys) (h : s.fc_last ≠ some (max 0 (min 100 req))) :
    set_speed false persistOk req s = .error s :=
  set_speed_error_of_ne persistOk req s h

/-- Witness for C4 at request 80 from a fresh state. -/
theorem set_speed_write_failure_leaves_state_witness :
    sys0.fc_last ≠ some (max 0 (min 100 80)) ∧
    set_speed false true 80 sys0 = .error sys0 :=
  ⟨by decide, set_speed_write_failure_leaves_state true 80 sys0 (by decide)⟩

/-- Claim C9 (confirmed): `setSpeed(150)` behaves exactly like
`setSpeed(100)` and `setSpeed(-5)` exactly like `setSpeed(0)`, for every
controller state and every bus/persistence behavior. -/
theorem set_speed_clamping (hwOk persistOk : Bool) (s : Sys) :
    set_speed hwOk persistOk 150 s = set_speed hwOk persistOk 100 s ∧
    set_speed hwOk persistOk (-5) s = set_speed hwOk persistOk 0 s :=
  ⟨set_speed_congr hwOk persistOk 150 100 s (by decide),
   set_speed_congr hwOk persistOk (-5) 0 s (by decide)⟩

/-- Claim C7 (confirmed): durable storage "55" initializes the current speed
to 55 and makes `setSpeed(55)` a no-op; corrupted (unparseable) or absent
storage initializes it to none, and then no `setSpeed` call is a no-op,
whatever value is requested and whether or not the write succeeds. -/
theorem startup_recovery_from_state_file (pi : List Char → Option Int)
    (content : List Char)
    (h55 : pi "55".data = some 55) (hbad : pi (pyStrip content) = none) :
    read_state pi (some "55".data) = some 55 ∧
    (∀ s : Sys, fc_init true pi s =
      .ok { s with fc_last := read_state pi s.store,
                   events := s.events ++ [Event.busOpen] }) ∧
    (∀ (hwOk persistOk : Bool) (s : Sys), s.fc_last = some 55 →
      set_speed hwOk persistOk 55 s = .ok s) ∧
    read_state pi (some content) = none ∧
    read_state pi none = none ∧
    (∀ (hwOk persistOk : Bool) (v : Int) (s : Sys), s.fc_last = none →
      set_speed hwOk persistOk v s ≠ .ok s) := by
  refine ⟨h55, fun s => rfl, ?_, hbad, rfl, ?_⟩
  · intro hwOk persistOk s h
    exact set_speed_noop hwOk persistOk 55 s (by rw [h]; decide)
  · intro hwOk persistOk v s h heq
    cases hwOk with
    | false =>
      rw [set_speed_error_of_ne persistOk v s (by rw [h]; simp)] at heq
      exact Except.noConfusion heq
    | true =>
      rw [set_speed_commit persistOk v s (by rw [h]; simp)] at heq
      have h2 : commitSpeed persistOk (max 0 (min 100 v)) s = s :=
        Except.ok.inj heq
      have h3 := congrArg Sys.fc_last h2
      rw [commitSpeed_fc_last, h] at h3
      exact Option.noConfusion h3

/-- Witness for C7 with the decimal `int()` model and content "garbage". -/
theorem startup_recovery_from_state_file_witness :
    piDec "55".data = some 55 ∧ piDec (pyStrip "garbage".data) = none ∧
    read_state piDec (some "55".data) = some 55 :=
  ⟨by decide, by decide,
   (startup_recovery_from_state_file piDec "garbage".data (by decide)
     (by decide)).1⟩

/-- Claim C8 counterexample: starting from a controller that already knows
speed 50, two `setSpeed(50)` calls are both no-ops — zero hardware writes
and zero durable writes, not "exactly one in total". -/
theorem set_speed_twice_same_state_zero_writes :
    set_speed true true 50 ⟨some 50, some "50".data, []⟩ =
      .ok ⟨some 50, some "50".data, []⟩ ∧
    ¬ (List.countP isBusWrite
        (Sys.mk (some 50) (some "50".data) []).events = 1) := by
  exact ⟨rfl, by decide⟩

/-- Claim C8 (amended): when the clamped request differs from the current
known speed, calling `setSpeed` twice with the same clamped value performs
exactly one hardware write and exactly one durable-storage write in total,
and the second call leaves all state unchanged. -/
theorem set_speed_idempotent (v w : Int) (s : Sys)
    (hcl : max 0 (min 100 v) = max 0 (min 100 w))
    (hne : s.fc_last ≠ some (max 0 (min 100 v))) :
    set_speed true true v s = .ok (commitSpeed true (max 0 (min 100 v)) s) ∧
    set_speed true true w (commitSpeed true (max 0 (min 100 v)) s) =
      .ok (commitSpeed true (max 0 (min 100 v)) s) ∧
    (commitSpeed true (max 0 (min 100 v)) s).events.countP isBusWrite =
      s.events.countP isBusWrite + 1 ∧
    (commitSpeed true (max 0 (min 100 v)) s).events.countP isStateWrite =
      s.events.countP isStateWrite + 1 := by
  refine ⟨set_speed_commit true v s hne, ?_, ?_, ?_⟩
  · exact set_speed_noop true true w _ (by rw [commitSpeed_fc_last, hcl])
  · rw [commitSpeed_events]
    simp [List.countP_append, List.countP_cons, isBusWrite, isStateWrite]
  · rw [commitSpeed_events]
    simp [List.countP_append, List.countP_cons, isBusWrite, isStateWrite]

/-- Witness for C8 at request 80 from a fresh state. -/
theorem set_speed_idempotent_witness :
    sys0.fc_last ≠ some (max 0 (min 100 80)) ∧
    set_speed true true 80 sys0 =
      .ok (commitSpeed true (max 0 (min 100 80)) sys0) :=
  ⟨by decide, (set_speed_idempotent 80 80 sys0 rfl (by decide)).1⟩

/-! ### Claims about the service loop -/

/-- Claim C2 counterexample: with a first tick whose bus write fails and a
second tick that would succeed, the loop raises out of `run_service` — the
bus is closed, no second iteration runs, and from `main SERVICE` the
exception escapes uncaught, terminating the process. -/
theorem run_service_crash_on_write_failure :
    run_service envLoopFail sys0 =
      .error ⟨none, none, [Event.busOpen, Event.busClose]⟩ ∧
    main envLoopFail ["argononed".data, "SERVICE".data] sys0 =
      .error ⟨none, none,
        [Event.busOpen, Event.busOpen, Event.busClose, Event.busClose]⟩ := by
  exact ⟨rfl, rfl⟩

/-- Claim C2 (amended): a hardware write failure in a service-loop iteration
(one that actually attempts a write) ends the loop immediately — the
exception propagates, no later tick runs, and the commanded-speed state and
store are unchanged by the failing call. -/
theorem service_loop_stops_on_write_failure (steps : List Step)
    (persistOk : Bool) (temp : ℚ) (rest : List (ℚ × Bool)) (s : Sys)
    (h : s.fc_last ≠ some (max 0 (min 100 (calc_target temp steps s.fc_last)))) :
    service_loop steps persistOk ((temp, false) :: rest) s = .error s := by
  simp only [service_loop]
  rw [set_speed_error_of_ne persistOk (calc_target temp steps s.fc_last) s h]

/-- Witness for C2's amended statement: first tick 70 °C failing, a second
successful tick pending, fresh controller state. -/
theorem service_loop_stops_on_write_failure_witness :
    sys0.fc_last ≠ some (max 0 (min 100 (calc_target 70 defaultSteps sys0.fc_last))) ∧
    service_loop defaultSteps true [(70, false), (70, true)] sys0 =
      .error sys0 :=
  ⟨by decide,
   service_loop_stops_on_write_failure defaultSteps true 70 [(70, true)] sys0
     (by decide)⟩

/-! ### Claims about configuration loading -/

/-- A blank line, a comment line, or a line whose parse raises contributes
nothing to the accumulated steps. -/
lemma conf_line_skipped (pf : List Char → Option ℚ) (pi : List Char → Option Int)
    (line : List Char)
    (h : pyStrip line = [] ∨ pyStartsWithHash (pyStrip line) = true ∨
      parse_line pf pi (pyStrip line) = none) :
    (let l := pyStrip line;
      if l.isEmpty || pyStartsWithHash l then none else parse_line pf pi l) = none := by
  rcases h with h | h | h
  · simp [h]
  · simp [h]
  · by_cases hc : ((pyStrip line).isEmpty || pyStartsWithHash (pyStrip line)) = true <;>
      simp [hc, h]

/-- Claim C5 counterexample: a config file that exists but has no valid step
line (empty, or only comments) yields the empty table, not the default
table — the default is used only when the file is absent. -/
theorem parse_conf_empty_file_not_default :
    parse_conf pfNone piNone (some []) = [] ∧
    parse_conf pfNone piNone (some ["# fan curve".data]) = [] ∧
    ([] : List Step) ≠ defaultSteps := by
  exact ⟨rfl, rfl, by decide⟩

/-- Claim C5 (amended): an absent config file falls back to the default
table; with the file present, blank, comment and malformed lines are each
skipped without failing, a file with no valid line yields the empty table
(not the default), and every valid line's step appears in the result. -/
theorem parse_conf_fallback_and_skip (pf : List Char → Option ℚ)
    (pi : List Char → Option Int) :
    parse_conf pf pi none = defaultSteps ∧
    (∀ (lines : List (List Char)) (line : List Char),
      (pyStrip line = [] ∨ pyStartsWithHash (pyStrip line) = true ∨
        parse_line pf pi (pyStrip line) = none) →
      parse_conf pf pi (some (line :: lines)) = parse_conf pf pi (some lines)) ∧
    (∀ lines : List (List Char),
      (∀ line ∈ lines, pyStrip line = [] ∨ pyStartsWithHash (pyStrip line) = true ∨
        parse_line pf pi (pyStrip line) = none) →
      parse_conf pf pi (some lines) = []) ∧
    (∀ (lines : List (List Char)) (line : List Char) (st : Step),
      line ∈ lines → pyStrip line ≠ [] →
      pyStartsWithHash (pyStrip line) = false →
      parse_line pf pi (pyStrip line) = some st →
      st ∈ parse_conf pf pi (some lines)) := by
  refine ⟨rfl, ?_, ?_, ?_⟩
  · intro lines line h
    simp only [parse_conf, List.filterMap_cons]
    rw [conf_line_skipped pf pi line h]
  · intro lines h
    simp only [parse_conf]
    rw [List.filterMap_eq_nil_iff.mpr fun a ha => conf_line_skipped pf pi a (h a ha)]
    rfl
  · intro lines line st hmem hne hhash hp
    simp only [parse_conf]
    rw [(List.perm_insertionSort _ _).mem_iff]
    refine List.mem_filterMap.mpr ⟨line, hmem, ?_⟩
    have hemp : (pyStrip line).isEmpty = false := by
      cases hstrip : pyStrip line with
      | nil => exact absurd hstrip hne
      | cons c t => rfl
    simp only [hemp, hhash, Bool.or_self, if_false]
    exact hp

/-- Witness for C5: over the always-raising parsers, skipping a comment line
leaves the parse of the remaining lines unchanged. -/
theorem parse_conf_fallback_and_skip_witness :
    parse_conf pfNone piNone none = defaultSteps ∧
    pyStartsWithHash (pyStrip "# c".data) = true ∧
    parse_conf pfNone piNone (some ["# c".data, "x".data]) =
      parse_conf pfNone piNone (some ["x".data]) :=
  ⟨(parse_conf_fallback_and_skip pfNone piNone).1, by decide,
   (parse_conf_fallback_and_skip pfNone piNone).2.1 ["x".data] "# c".data
     (Or.inr (Or.inl (by decide)))⟩

/-! ### Claims about command dispatch -/

/-- Claim C6 counterexample: an unknown subcommand does exit with code 2,
but only after the bus has been opened (and closed) — hardware interaction
does occur; and `FANSPEED` with its argument missing raises `IndexError`
(modelled as `.error`, a non-2 traceback exit), also after opening the
bus. -/
theorem main_unknown_command_opens_bus :
    main envCli ["argononed".data, "bogus".data] sys0 =
      .ok (2, ⟨none, none, [Event.busOpen, Event.busClose]⟩) ∧
    (Sys.mk none none [Event.busOpen, Event.busClose]).events ≠ [] ∧
    main envCli ["argononed".data, "FANSPEED".data] sys0 =
      .error ⟨none, none, [Event.busOpen, Event.busClose]⟩ := by
  exact ⟨rfl, by decide, rfl⟩

/-- Claim C6 (amended): fewer than two `argv` entries exits with code 2 and
no hardware interaction of any kind; an unknown subcommand exits with code 2
but opens and closes the bus first; `FANSPEED` without its argument raises
out of `main` (a traceback exit, not code 2) after opening and closing the
bus. -/
theorem main_exit_codes (env : Env) (s : Sys) (a cmd : List Char)
    (hsm : env.smbusOk = true)
    (h1 : pyUpper cmd ≠ "SERVICE".data) (h2 : pyUpper cmd ≠ "FANON".data)
    (h3 : pyUpper cmd ≠ "FANOFF".data) (h4 : pyUpper cmd ≠ "FANSPEED".data)
    (h5 : pyUpper cmd ≠ "STATUS".data) :
    main env [] s = .ok (2, s) ∧
    main env [a] s = .ok (2, s) ∧
    main env [a, cmd] s =
      .ok (2, { s with fc_last := read_state env.pi s.store,
                       events := s.events ++ [Event.busOpen, Event.busClose] }) ∧
    main env [a, "FANSPEED".data] s =
      .error { s with fc_last := read_state env.pi s.store,
                      events := s.events ++ [Event.busOpen, Event.busClose] } := by
  refine ⟨rfl, rfl, ?_, ?_⟩
  · simp [main, fc_init, fc_close, hsm, h1, h2, h3, h4, h5]
  · simp [main, fc_init, fc_close, hsm]
    rw [if_neg (show ¬(pyUpper ['F', 'A', 'N', 'S', 'P', 'E', 'E', 'D'] =
        ['S', 'E', 'R', 'V', 'I', 'C', 'E']) by decide),
      if_neg (show ¬(pyUpper ['F', 'A', 'N', 'S', 'P', 'E', 'E', 'D'] =
        ['F', 'A', 'N', 'O', 'N']) by decide),
      if_neg (show ¬(pyUpper ['F', 'A', 'N', 'S', 'P', 'E', 'E', 'D'] =
        ['F', 'A', 'N', 'O', 'F', 'F']) by decide),
      if_pos (show pyUpper ['F', 'A', 'N', 'S', 'P', 'E', 'E', 'D'] =
        ['F', 'A', 'N', 'S', 'P', 'E', 'E', 'D'] from rfl)]
    simp

/-- Witness for C6's amended statement at the unknown command "bogus". -/
theorem main_exit_codes_witness :
    envCli.smbusOk = true ∧
    pyUpper "bogus".data ≠ "SERVICE".data ∧
    main envCli [] sys0 = .ok (2, sys0) :=
  ⟨rfl, by decide,
   (main_exit_codes envCli sys0 "argononed".data "bogus".data rfl (by decide)
     (by decide) (by decide) (by decide) (by decide)).1⟩

end Argononed
